import Mathlib

/-!
# Verification of the legal-intake core (validators, extractors, intake state machine)

A shallow embedding, in Lean 4, of the TypeScript intake core of this
repository: `src/utils/validators.ts` (field validators and the 7-phase
intake state machine), the person extractor and case extractor modules, and
the person API route (`src/app/api/person/route.ts`).

Modelling conventions, used throughout:

* Text is ECMAScript strings restricted to the Basic Multilingual Plane: a
  Lean `String` viewed as its list of characters; JavaScript string indices
  (UTF-16 units) coincide with character indices for all German text involved.
* Each JavaScript regular expression of the source is hand-translated into an
  explicit backtracking matcher over `List Char` whose structure mirrors the
  pattern; the original pattern is quoted in the doc comment of its matcher.
* `String.prototype.toLowerCase`/`toUpperCase` are modelled for the ASCII
  range and the German letters Ä/Ö/Ü/ä/ö/ü/ß (the only letters appearing in
  the data this code handles); other characters map to themselves.
* Confidence scores are exact rationals with denominator 100, represented as
  naturals in hundredths: the source's `0.8` is `80`, the threshold `0.6` is
  `60`.  Every per-field score in the source is a multiple of `0.1`, so the
  unweighted mean of five of them is a multiple of `0.02` and the natural
  division by 5 below is exact; no rounding is introduced.
* `new Date(...)` is modelled with the runtime timezone set to UTC (offset
  zero), proleptic Gregorian, via the standard civil-from-days conversion.
* JavaScript truthiness on optional strings (`undefined` and `""` are falsy)
  is `jsTruthyStr`; `x || y` and `x ?? y` are translated accordingly.
-/

/-! ## Character and string utilities -/

/-- JavaScript whitespace (`\s`, `trim`): the characters that occur in this
repository's data (space, tab, LF, CR, FF, VT). -/
def jsIsWs (c : Char) : Bool :=
  c = ' ' || c = '\t' || c = '\n' || c = '\x0d' || c = '\x0c' || c = '\x0b'

def isDigitCh (c : Char) : Bool := '0' ≤ c && c ≤ '9'

def isAsciiLower (c : Char) : Bool := 'a' ≤ c && c ≤ 'z'

def isAsciiUpper (c : Char) : Bool := 'A' ≤ c && c ≤ 'Z'

/-- `String.prototype.toLowerCase`, on ASCII and Ä/Ö/Ü. -/
def jsLowerCh (c : Char) : Char :=
  if isAsciiUpper c then Char.ofNat (c.toNat + 32)
  else if c = 'Ä' then 'ä' else if c = 'Ö' then 'ö' else if c = 'Ü' then 'ü'
  else c

/-- `String.prototype.toUpperCase` on a single character, on ASCII and
ä/ö/ü.  (`ß` uppercases to the two-character string `"SS"`; the one place
that matters, `capitalizeWords`, uses `jsUpperFirst` below.) -/
def jsUpperCh (c : Char) : Char :=
  if isAsciiLower c then Char.ofNat (c.toNat - 32)
  else if c = 'ä' then 'Ä' else if c = 'ö' then 'Ö' else if c = 'ü' then 'Ü'
  else c

/-- `charAt(0).toUpperCase()` as a character list: `'ß'` gives `"SS"`. -/
def jsUpperFirst (c : Char) : List Char :=
  if c = 'ß' then ['S', 'S'] else [jsUpperCh c]

def jsLowerChars (cs : List Char) : List Char := cs.map jsLowerCh

/-- `String.prototype.toLowerCase`. -/
def jsLowerStr (s : String) : String := String.mk (jsLowerChars s.data)

def leadsWith : List Char → List Char → Bool
  | [], _ => true
  | _ :: _, [] => false
  | a :: as, b :: bs => a == b && leadsWith as bs

/-- `String.prototype.includes`: substring containment. -/
def subsetRun (needle : List Char) : List Char → Bool
  | [] => needle.isEmpty
  | s@(_ :: t) => leadsWith needle s || subsetRun needle t

/-- `hay.includes(needle)` on strings. -/
def jsIncludes (hay needle : String) : Bool := subsetRun needle.data hay.data

/-- `String.prototype.indexOf`: first index of `needle` in `hay`, `-1` when
absent. -/
def jsIndexOfGo (needle : List Char) : Nat → List Char → Int
  | i, [] => if needle.isEmpty then (i : Int) else -1
  | i, s@(_ :: t) => if leadsWith needle s then (i : Int) else jsIndexOfGo needle (i + 1) t

def jsIndexOf (hay needle : List Char) : Int := jsIndexOfGo needle 0 hay

/-- `String.prototype.trim`. -/
def jsTrimChars (cs : List Char) : List Char :=
  ((cs.dropWhile jsIsWs).reverse.dropWhile jsIsWs).reverse

def jsTrim (s : String) : String := String.mk (jsTrimChars s.data)

/-- `String.prototype.substring(a, b)` (both arguments already clamped to
`[0, length]` by the callers below, per the source's `Math.max`/`Math.min`). -/
def jsSubstring (cs : List Char) (a b : Nat) : List Char := (cs.take b).drop a

/-- JavaScript truthiness of an optional string: `undefined` and `""` are
falsy. -/
def jsTruthyStr : Option String → Bool
  | none => false
  | some s => !(s == "")

/-- `arr && arr.length > 0` on an optional list. -/
def jsSomeNonempty : Option (List α) → Bool
  | none => false
  | some l => 0 < l.length

/-- `String.prototype.split('\n')`. -/
def splitOnNl (cs : List Char) : List (List Char) :=
  cs.foldr (fun c acc =>
    match acc with
    | [] => if c = '\n' then [[], []] else [[c]]
    | part :: rest => if c = '\n' then [] :: (part :: rest) else (c :: part) :: rest) [[]]

/-- `String.prototype.split(/\s+/)`: parts between maximal whitespace runs
(a leading run yields a leading empty part, a trailing one a trailing empty
part, as in JavaScript).  The flag records being inside a whitespace run. -/
def splitWsGo : List Char → List Char → Bool → List (List Char)
  | acc, [], _ => [acc.reverse]
  | acc, c :: t, inWs =>
    if jsIsWs c then
      if inWs then splitWsGo [] t true
      else acc.reverse :: splitWsGo [] t true
    else splitWsGo (c :: acc) t false

def splitWsRuns (cs : List Char) : List (List Char) := splitWsGo [] cs false

/-! ## Backtracking matchers

Each JavaScript regex of the source is translated into a matcher in
continuation-passing style: a matcher consumes characters from the head of a
`List Char` and passes the rest to its continuation, which returns
`some (extraConsumed, payload)` on success.  Greedy quantifiers try the
longest repetition first and backtrack through the continuation, exactly as
the JavaScript engine does. -/

/-- Length of the longest run of `p`-characters at the head. -/
def runLen (p : Char → Bool) : List Char → Nat
  | [] => 0
  | c :: t => if p c then runLen p t + 1 else 0

/-- Try counts `n, n-1, …, lo` (greedy order) until the continuation
succeeds. -/
def greedyDesc (lo : Nat) (k : Nat → Option α) : Nat → Option α
  | 0 => if lo = 0 then k 0 else none
  | n + 1 => if n + 1 < lo then none
    else match k (n + 1) with
      | some a => some a
      | none => greedyDesc lo k n

/-- Greedy bounded character-class repetition `p{lo,hi}` (`hi = none` for an
unbounded `+`/`*`), backtracking through `k`, which receives the consumed
prefix and the rest. -/
def repCls (p : Char → Bool) (lo : Nat) (hi : Option Nat) (s : List Char)
    (k : List Char → List Char → Option (Nat × α)) : Option (Nat × α) :=
  let maxN := min (hi.getD s.length) (runLen p s)
  greedyDesc lo (fun n => (k (s.take n) (s.drop n)).map (fun r => (n + r.1, r.2))) maxN

/-- Optional single character of class `p` (`p?`), greedy. -/
def optCls (p : Char → Bool) (s : List Char)
    (k : List Char → Option (Nat × α)) : Option (Nat × α) :=
  match s with
  | c :: t =>
    if p c then
      match k t with
      | some r => some (r.1 + 1, r.2)
      | none => k s
    else k s
  | [] => k s

/-- Case-sensitive literal. -/
def litCS (lit : List Char) (s : List Char)
    (k : List Char → Option (Nat × α)) : Option (Nat × α) :=
  if leadsWith lit s then (k (s.drop lit.length)).map (fun r => (lit.length + r.1, r.2))
  else none

/-- Case-insensitive literal (the `i` flag), canonicalizing via `jsLowerCh`. -/
def litCI (lit : List Char) (s : List Char)
    (k : List Char → Option (Nat × α)) : Option (Nat × α) :=
  if leadsWith (jsLowerChars lit) (jsLowerChars (s.take lit.length)) && lit.length ≤ s.length then
    (k (s.drop lit.length)).map (fun r => (lit.length + r.1, r.2))
  else none

/-- A character class under the `i` flag: the character matches after case
canonicalization in either direction. -/
def clsCI (p : Char → Bool) (c : Char) : Bool :=
  p c || p (jsLowerCh c) || p (jsUpperCh c)

/-- First (leftmost) match of `m` in `s`: `(index, length, payload)`. -/
def searchFirstGo (m : List Char → Option (Nat × α)) : Nat → List Char → Option (Nat × Nat × α)
  | i, [] => (m []).map (fun r => (i, r.1, r.2))
  | i, s@(_ :: t) =>
    match m s with
    | some r => some (i, r.1, r.2)
    | none => searchFirstGo m (i + 1) t

def searchFirst (m : List Char → Option (Nat × α)) (s : List Char) : Option (Nat × Nat × α) :=
  searchFirstGo m 0 s

/-- All matches of a global (`g`) regex: repeated leftmost search, resuming
after the end of each match (none of the translated patterns can match the
empty string, so each step consumes at least one character; `fuel` makes the
recursion structurally terminating). -/
def searchAllGo (m : List Char → Option (Nat × α)) : Nat → Nat → List Char → List (Nat × Nat × α)
  | 0, _, _ => []
  | fuel + 1, i, s =>
    match searchFirst m s with
    | none => []
    | some (j, len, a) =>
      (i + j, len, a) :: searchAllGo m fuel (i + j + len) (s.drop (j + len))

def searchAll (m : List Char → Option (Nat × α)) (s : List Char) : List (Nat × Nat × α) :=
  searchAllGo m (s.length + 1) 0 s

/-! ## Civil-date arithmetic (the ECMAScript `Date` model)

`new Date(year, monthIndex, day)` normalizes out-of-range month and day by
day arithmetic on the proleptic Gregorian calendar; with the runtime timezone
modelled as UTC, `toISOString().split('T')[0]` is the civil date of that day
count.  The two conversions below are the standard era-based algorithms. -/

/-- Days since 1970-01-01 of the civil date `y-m-d` (proleptic Gregorian). -/
def daysFromCivil (y m d : Int) : Int :=
  let y' := y - (if m ≤ 2 then 1 else 0)
  let era := y'.fdiv 400
  let yoe := y' - era * 400
  let mp := m + (if 2 < m then -3 else 9)
  let doy := (153 * mp + 2).fdiv 5 + d - 1
  let doe := yoe * 365 + yoe.fdiv 4 - yoe.fdiv 100 + doy
  era * 146097 + doe - 719468

/-- Civil date `(y, m, d)` of a count of days since 1970-01-01. -/
def civilFromDays (z : Int) : Int × Int × Int :=
  let z' := z + 719468
  let era := z'.fdiv 146097
  let doe := z' - era * 146097
  let yoe := (doe - doe.fdiv 1460 + doe.fdiv 36524 - doe.fdiv 146096).fdiv 365
  let y := yoe + era * 400
  let doy := doe - (365 * yoe + yoe.fdiv 4 - yoe.fdiv 100)
  let mp := (5 * doy + 2).fdiv 153
  let d := doy - (153 * mp + 2).fdiv 5 + 1
  let m := mp + (if mp < 10 then 3 else -9)
  (y + (if m ≤ 2 then 1 else 0), m, d)

def pad2 (n : Nat) : String := if n < 10 then "0" ++ toString n else toString n

def pad4 (n : Nat) : String :=
  if n < 10 then "000" ++ toString n
  else if n < 100 then "00" ++ toString n
  else if n < 1000 then "0" ++ toString n
  else toString n

/-- The date part of `Date.prototype.toISOString` (UTC). -/
def isoDateString (y m d : Int) : String :=
  pad4 y.toNat ++ "-" ++ pad2 m.toNat ++ "-" ++ pad2 d.toNat

/-- `new Date(y, monthIndex, d)` (UTC model), as its civil date:
month overflow moves the year, day overflow moves the month, by the
ECMAScript `MakeDay` day arithmetic. -/
def jsMakeDate (y monthIndex d : Int) : Int × Int × Int :=
  let ym := y + monthIndex.fdiv 12
  let mn := monthIndex.emod 12
  civilFromDays (daysFromCivil ym (mn + 1) 1 + (d - 1))

def isLeapYear (y : Int) : Bool := (y.emod 4 = 0 && y.emod 100 ≠ 0) || y.emod 400 = 0

def daysInMonth (y m : Int) : Int :=
  if m = 2 then (if isLeapYear y then 29 else 28)
  else if m = 4 || m = 6 || m = 9 || m = 11 then 30 else 31

/-! ## Validators (`src/utils/validators.ts`) -/

/-- The anchored German-date regex `/^(\d{1,2})\.(\d{1,2})\.(\d{4})$/`:
the whole string is 1–2 digits, `.`, 1–2 digits, `.`, exactly 4 digits
(the neighbouring literal dots and the end anchor make the greedy digit
counts deterministic).  Returns `(day, month, year)`. -/
def germanDateMatch (cs : List Char) : Option (Nat × Nat × Nat) :=
  let dayRun := runLen isDigitCh cs
  if dayRun < 1 || 2 < dayRun then none else
  match cs.drop dayRun with
  | '.' :: rest1 =>
    let monRun := runLen isDigitCh rest1
    if monRun < 1 || 2 < monRun then none else
    match rest1.drop monRun with
    | '.' :: rest2 =>
      if rest2.length = 4 && rest2.all isDigitCh then
        some (digitsToNat (cs.take dayRun), digitsToNat (rest1.take monRun), digitsToNat rest2)
      else none
    | _ => none
  | _ => none
where
  digitsToNat (ds : List Char) : Nat := ds.foldl (fun n c => n * 10 + (c.toNat - 48)) 0

/-- `new Date(s)` for a date-only ISO string `YYYY-MM-DD` (the ECMAScript
Date Time String Format, date-only form, which is interpreted as UTC
midnight; out-of-range components give an invalid date; other
implementation-defined formats are modelled as unparseable).  Returns
`(year, month, day)`. -/
def isoParse (cs : List Char) : Option (Int × Int × Int) :=
  match cs with
  | [y1, y2, y3, y4, '-', m1, m2, '-', d1, d2] =>
    if [y1, y2, y3, y4, m1, m2, d1, d2].all isDigitCh then
      let y : Int := ((y1.toNat - 48) * 1000 + (y2.toNat - 48) * 100 + (y3.toNat - 48) * 10 + (y4.toNat - 48) : Nat)
      let m : Int := ((m1.toNat - 48) * 10 + (m2.toNat - 48) : Nat)
      let d : Int := ((d1.toNat - 48) * 10 + (d2.toNat - 48) : Nat)
      if 1 ≤ m && m ≤ 12 && 1 ≤ d && d ≤ daysInMonth y m then some (y, m, d) else none
    else none
  | _ => none

/-- `parseGermanDate`: parses `DD.MM.YYYY` via the anchored regex and
converts through `new Date(year, month - 1, day).toISOString()` (which
normalizes out-of-range days by overflow rather than rejecting them), else
falls back to `new Date(dateString)` for an ISO date string; `none` when
neither parses. -/
def parseGermanDate (dateString : String) : Option String :=
  match germanDateMatch dateString.data with
  | some (day, month, year) =>
    let c := jsMakeDate (year : Int) ((month : Int) - 1) (day : Int)
    some (isoDateString c.1 c.2.1 c.2.2)
  | none =>
    match isoParse dateString.data with
    | some (y, m, d) => some (isoDateString y m d)
    | none => none

/-- The email regex `/^[^\s@]+@[^\s@]+\.[^\s@]+$/` of `isValidEmail`. -/
def emailShapeCls (c : Char) : Bool := !jsIsWs c && c ≠ '@'

def isValidEmail (email : String) : Bool :=
  (repCls emailShapeCls 1 none email.data (fun _ s1 =>
    match s1 with
    | '@' :: s2 =>
      (repCls emailShapeCls 1 none s2 (fun _ s3 =>
        match s3 with
        | '.' :: s4 =>
          (repCls emailShapeCls 1 none s4 (fun _ s5 =>
            if s5.isEmpty then some (0, ()) else none)).map (fun r => (r.1 + 1, r.2))
        | _ => none)).map (fun r => (r.1 + 1, r.2))
    | _ => none)).isSome

def isValidClientType (type_ : String) : Bool :=
  ["private", "company"].contains type_

def isValidContactMethod (method : String) : Bool :=
  ["email", "phone"].contains method

/-- `Partial<PersonData>`: every field optional; `client_type` and
`preferred_contact_method` are runtime strings checked by membership, the
consent flags are present-and-boolean or absent. -/
structure PersonDataPartial where
  full_name : Option String := none
  email : Option String := none
  phone_number : Option String := none
  client_type : Option String := none
  company_name : Option String := none
  location : Option String := none
  preferred_contact_method : Option String := none
  consent_to_contact : Option Bool := none
  consent_share_with_lawyer : Option Bool := none
deriving Repr, DecidableEq

structure ValidationResult where
  valid : Bool
  errors : List String
deriving Repr, DecidableEq

/-- `validatePersonData`: accumulates every violated rule as a German
message, in source order. -/
def validatePersonData (data : PersonDataPartial) : ValidationResult :=
  let errors :=
    (if !jsTruthyStr data.full_name || (jsTrim (data.full_name.getD "")).length < 2 then
      ["Name muss mindestens 2 Zeichen haben"] else []) ++
    (if !jsTruthyStr data.email || !isValidEmail (data.email.getD "") then
      ["Gültige E-Mail-Adresse erforderlich"] else []) ++
    (if !jsTruthyStr data.client_type || !isValidClientType (data.client_type.getD "") then
      ["Mandantentyp muss \"private\" oder \"company\" sein"] else []) ++
    (if data.client_type = some "company" &&
        (!jsTruthyStr data.company_name || (jsTrim (data.company_name.getD "")).length < 2) then
      ["Firmenname erforderlich für Firmenmandanten"] else []) ++
    (if jsTruthyStr data.preferred_contact_method &&
        !isValidContactMethod (data.preferred_contact_method.getD "") then
      ["Kontaktmethode muss \"email\" oder \"phone\" sein"] else []) ++
    (if data.consent_share_with_lawyer.isNone then
      ["Zustimmung zur Weitergabe an Anwalt erforderlich"] else [])
  { valid := errors.length = 0, errors := errors }

/-! ## Conversation data (`src/lib/supabase-server.ts`) -/

structure Message where
  id : String := ""
  created_at : String := ""
  conversation_id : String := ""
  role : String
  content : String
deriving Repr, DecidableEq

structure Document where
  id : String := ""
  created_at : String := ""
  conversation_id : Option String := none
  uploaded_by : Option String := none
  file_name : Option String := none
  file_url : Option String := none
  mime_type : Option String := none
  size_bytes : Option Nat := none
  extracted_text : Option String := none
  linked_case_id : Option String := none
deriving Repr, DecidableEq

/-! ## Person extractor -/

structure ExtractedPersonData where
  full_name : Option String := none
  email : Option String := none
  phone_number : Option String := none
  client_type : Option String := none
  company_name : Option String := none
  location : Option String := none
  preferred_contact_method : Option String := none
deriving Repr, DecidableEq

def emailLocalCls (c : Char) : Bool :=
  isAsciiLower c || isAsciiUpper c || isDigitCh c ||
    c = '.' || c = '_' || c = '%' || c = '+' || c = '-'

def emailDomCls (c : Char) : Bool :=
  isAsciiLower c || isAsciiUpper c || isDigitCh c || c = '.' || c = '-'

def asciiLetter (c : Char) : Bool := isAsciiLower c || isAsciiUpper c

/-- The email regex `/[a-zA-Z0-9._%+-]+@[a-zA-Z0-9.-]+\.[a-zA-Z]{2,}/g`
of `extractEmail`, as a matcher at the head of the input. -/
def emailMatch (s : List Char) : Option (Nat × Unit) :=
  repCls emailLocalCls 1 none s (fun _ s1 =>
    match s1 with
    | '@' :: s2 =>
      (repCls emailDomCls 1 none s2 (fun _ s3 =>
        match s3 with
        | '.' :: s4 =>
          (repCls asciiLetter 2 none s4 (fun _ _ =>
            some (0, ()))).map (fun r => (r.1 + 1, r.2))
        | _ => none)).map (fun r => (r.1 + 1, r.2))
    | _ => none)

/-- `extractEmail`: first match of the email pattern. -/
def extractEmail (text : String) : Option String :=
  let cs := text.data
  (searchFirst emailMatch cs).map (fun r => String.mk (jsSubstring cs r.1 (r.1 + r.2.1)))

def phoneSepA (c : Char) : Bool := jsIsWs c || c = '.' || c = '-'

def phoneSepB (c : Char) : Bool := jsIsWs c || c = '.' || c = '/' || c = '-'

/-- `/(\+49|0049)[\s.-]?\d{2,4}[\s.-]?\d{3,8}[\s.-]?\d{0,6}/g`. -/
def phoneMatchA (s : List Char) : Option (Nat × Unit) :=
  let tail := fun s1 =>
    optCls phoneSepA s1 (fun s2 =>
      repCls isDigitCh 2 (some 4) s2 (fun _ s3 =>
        optCls phoneSepA s3 (fun s4 =>
          repCls isDigitCh 3 (some 8) s4 (fun _ s5 =>
            optCls phoneSepA s5 (fun s6 =>
              repCls isDigitCh 0 (some 6) s6 (fun _ _ => some (0, ())))))))
  (litCS "+49".data s tail) <|> (litCS "0049".data s tail)

/-- The second phone pattern: a leading literal `0`, then `\d{2,4}`,
`\d{3,8}`, `\d{0,6}` separated by optional single separators from the class
`[\s.-]` extended by a forward slash (global flag). -/
def phoneMatchB (s : List Char) : Option (Nat × Unit) :=
  litCS "0".data s (fun s1 =>
    repCls isDigitCh 2 (some 4) s1 (fun _ s2 =>
      optCls phoneSepB s2 (fun s3 =>
        repCls isDigitCh 3 (some 8) s3 (fun _ s4 =>
          optCls phoneSepB s4 (fun s5 =>
            repCls isDigitCh 0 (some 6) s5 (fun _ _ => some (0, ())))))))

/-- `extractPhoneNumber`: first match of either pattern, in order, cleaned
with `.replace(/[\s.-]/g, '').trim()`. -/
def extractPhoneNumber (text : String) : Option String :=
  let cs := text.data
  let clean := fun (r : Nat × Nat × Unit) =>
    String.mk (jsTrimChars ((jsSubstring cs r.1 (r.1 + r.2.1)).filter (fun c => !phoneSepA c)))
  match searchFirst phoneMatchA cs with
  | some r => some (clean r)
  | none =>
    match searchFirst phoneMatchB cs with
    | some r => some (clean r)
    | none => none

/-- The letter class `[A-Za-zÄÖÜäöüß]`. -/
def germanLtr (c : Char) : Bool :=
  isAsciiLower c || isAsciiUpper c ||
    c = 'Ä' || c = 'Ö' || c = 'Ü' || c = 'ä' || c = 'ö' || c = 'ü' || c = 'ß'

def upperGermanCls (c : Char) : Bool :=
  isAsciiUpper c || c = 'Ä' || c = 'Ö' || c = 'Ü'

def lowerGermanCls (c : Char) : Bool :=
  isAsciiLower c || c = 'ä' || c = 'ö' || c = 'ü' || c = 'ß'

/-- The trailing `(?:\s+[A-Za-zÄÖÜäöüß]+)*` of the name patterns
(it closes the pattern, so the greedy scan needs no backtracking):
`(consumed, captured)` of the maximal repetition. -/
def wordStar : Nat → List Char → Nat × List Char
  | 0, _ => (0, [])
  | fuel + 1, s =>
    let w := runLen jsIsWs s
    if w = 0 then (0, []) else
    let s1 := s.drop w
    let l := runLen germanLtr s1
    if l = 0 then (0, []) else
    let r := wordStar fuel (s1.drop l)
    (w + l + r.1, s.take w ++ s1.take l ++ r.2)

/-- Shared tail of the two name patterns:
`\s*([A-Za-zÄÖÜäöüß]+(?:\s+[A-Za-zÄÖÜäöüß]+)*)` — with `minWords = 2` the
group repetition is `+` instead of `*` (pattern 2). -/
def nameCaptureTail (minWords : Nat) (s1 : List Char) : Option (Nat × List Char) :=
  let wsLen := runLen jsIsWs s1
  let s2 := s1.drop wsLen
  let firstLen := runLen germanLtr s2
  if firstLen = 0 then none else
  let s3 := s2.drop firstLen
  let r := wordStar s3.length s3
  if minWords ≥ 2 && r.1 = 0 then none else
  some (wsLen + firstLen + r.1, s2.take firstLen ++ r.2)

/-- `/(?:mein name ist|ich heiße|ich bin|name:|name\s+ist)\s*([A-Za-zÄÖÜäöüß]+(?:\s+[A-Za-zÄÖÜäöüß]+)*)/i`. -/
def namePat1 (s : List Char) : Option (Nat × List Char) :=
  (litCI "mein name ist".data s (nameCaptureTail 1)) <|>
  (litCI "ich heiße".data s (nameCaptureTail 1)) <|>
  (litCI "ich bin".data s (nameCaptureTail 1)) <|>
  (litCI "name:".data s (nameCaptureTail 1)) <|>
  (litCI "name".data s (fun sa =>
    repCls jsIsWs 1 none sa (fun _ sb =>
      litCI "ist".data sb (nameCaptureTail 1))))

/-- The comma-or-whitespace class `[,\s]`. -/
def commaWs (c : Char) : Bool := c = ',' || jsIsWs c

/-- `/(?:mit freundlichen grüßen|grüße|viele grüße)[,\s]*([A-Za-zÄÖÜäöüß]+(?:\s+[A-Za-zÄÖÜäöüß]+)+)/i`. -/
def namePat2 (s : List Char) : Option (Nat × List Char) :=
  let tail := fun s1 =>
    repCls commaWs 0 none s1 (fun _ s2 => nameCaptureTail 2 s2)
  (litCI "mit freundlichen grüßen".data s tail) <|>
  (litCI "grüße".data s tail) <|>
  (litCI "viele grüße".data s tail)

/-- `capitalizeWords`: split on `/\s+/`, uppercase each word's first
character, lowercase the rest, join with single spaces. -/
def capitalizeWords (str : String) : String :=
  String.intercalate " " ((splitWsRuns str.data).map (fun w =>
    String.mk (match w with
      | [] => []
      | c :: rest => jsUpperFirst c ++ jsLowerChars rest)))

/-- The stoplist of `extractName`'s line scan. -/
def nonNameWords : List String :=
  ["yes", "no", "ja", "nein", "ok", "okay", "private", "privat", "company", "firma",
   "email", "phone", "telefon", "hallo", "hello", "hi", "danke", "thanks", "bitte",
   "mit freundlichen", "viele grüße", "beste grüße", "mfg", "lg"]

/-- The per-line fallback of `extractName`: first line that is nonempty,
contains no `@` and no digit, matches no stoplist word, and consists of 1–4
purely alphabetic words. -/
def nameFromLines : List (List Char) → Option String
  | [] => none
  | line :: rest =>
    let trimmed := jsTrimChars line
    let lower := jsLowerChars trimmed
    if trimmed.isEmpty then nameFromLines rest
    else if trimmed.contains '@' then nameFromLines rest
    else if trimmed.any isDigitCh then nameFromLines rest
    else if nonNameWords.any (fun w => lower == w.data || subsetRun w.data lower) then
      nameFromLines rest
    else
      let words := splitWsRuns trimmed
      if 1 ≤ words.length && words.length ≤ 4 &&
          words.all (fun w => !w.isEmpty && w.all germanLtr) then
        some (capitalizeWords (String.mk trimmed))
      else nameFromLines rest

/-- `extractName`: the two explicit self-identification patterns in order,
then the line scan. -/
def extractName (text : String) : Option String :=
  let cs := text.data
  match searchFirst namePat1 cs with
  | some (_, _, cap) =>
    if !cap.isEmpty then some (capitalizeWords (String.mk (jsTrimChars cap)))
    else nameSecond cs
  | none => nameSecond cs
where
  nameSecond (cs : List Char) : Option String :=
    match searchFirst namePat2 cs with
    | some (_, _, cap) =>
      if !cap.isEmpty then some (capitalizeWords (String.mk (jsTrimChars cap)))
      else nameFromLines (splitOnNl cs)
    | none => nameFromLines (splitOnNl cs)

def companyIndicators : List String :=
  ["firma", "unternehmen", "gmbh", "ag", "ohg", "kg", "ug",
   "geschäftsführer", "geschäftlich", "betrieb", "gesellschaft",
   "konzern", "holding", "gbr", "e.v.", "verein"]

def privateIndicators : List String :=
  ["privat", "privatperson", "persönlich", "als privatperson"]

/-- `detectClientType`: explicit private indicators win, then company
indicators, default `'private'`. -/
def detectClientType (text : String) : String :=
  let lowerText := jsLowerStr text
  if privateIndicators.any (fun w => jsIncludes lowerText w) then "private"
  else if companyIndicators.any (fun w => jsIncludes lowerText w) then "company"
  else "private"

/-- Anything but newline or comma: `[^\n,]`. -/
def notNlComma (c : Char) : Bool := c ≠ '\n' && c ≠ ','

def wsOrColon (c : Char) : Bool := jsIsWs c || c = ':'

/-- `/(?:firma|unternehmen|company)[\s:]+([A-ZÄÖÜ][^\n,]+(?:gmbh|ag|ohg|kg|ug|gbr|e\.v\.)?)/i`:
under the `i` flag `[A-ZÄÖÜ]` matches any cased letter; the optional suffix
closes the pattern, so the greedy `[^\n,]+` keeps its maximal run. -/
def companyPat1 (s : List Char) : Option (Nat × List Char) :=
  let tail := fun s1 =>
    repCls wsOrColon 1 none s1 (fun _ s2 =>
      match s2 with
      | c :: s3 =>
        if clsCI upperGermanCls c then
          let midLen := runLen notNlComma s3
          if midLen = 0 then none
          else some (1 + midLen, c :: s3.take midLen)
        else none
      | [] => none)
  (litCI "firma".data s tail) <|>
  (litCI "unternehmen".data s tail) <|>
  (litCI "company".data s tail)

/-- `/([A-ZÄÖÜ][^\n,]+(?:GmbH|AG|OHG|KG|UG|GbR|e\.V\.))/` (case-sensitive):
the greedy `[^\n,]+` backtracks until one of the legal-form suffixes, tried
in order, matches. -/
def companyPat2 (s : List Char) : Option (Nat × List Char) :=
  match s with
  | c :: s1 =>
    if upperGermanCls c then
      (repCls notNlComma 1 none s1 (fun mid s2 =>
        (suffixAlt s2).map (fun (len, suf) => (len, mid, suf)))).map
        (fun (n, mid, suf) => (1 + n, c :: mid ++ suf))
    else none
  | [] => none
where
  suffixAlt (s : List Char) : Option (Nat × List Char) :=
    (["GmbH", "AG", "OHG", "KG", "UG", "GbR", "e.V."].map String.data).foldr
      (fun lit acc => (litCS lit s (fun _ => some (0, ()))).map (fun r => (r.1, lit)) <|> acc)
      none

/-- `extractCompanyName`: the two patterns in order, `match[1].trim()`. -/
def extractCompanyName (text : String) : Option String :=
  let cs := text.data
  match searchFirst companyPat1 cs with
  | some (_, _, cap) =>
    if !cap.isEmpty then some (String.mk (jsTrimChars cap)) else companySecond cs
  | none => companySecond cs
where
  companySecond (cs : List Char) : Option String :=
    match searchFirst companyPat2 cs with
    | some (_, _, cap) =>
      if !cap.isEmpty then some (String.mk (jsTrimChars cap)) else none
    | none => none

/-- Capture tail shared by the location patterns:
`([A-ZÄÖÜ][a-zäöüß]+(?:\s+[a-zäöüß]+)?)` under the `i` flag, with
`secondWord := false` for the pattern without the optional second word. -/
def locCapture (secondWord : Bool) (s : List Char) : Option (Nat × List Char) :=
  match s with
  | c :: s1 =>
    if clsCI upperGermanCls c then
      let l := runLen (clsCI lowerGermanCls) s1
      if l = 0 then none else
      let s2 := s1.drop l
      if secondWord then
        let w := runLen jsIsWs s2
        let s3 := s2.drop w
        let l2 := runLen (clsCI lowerGermanCls) s3
        if w ≥ 1 && l2 ≥ 1 then
          some (1 + l + w + l2, c :: s1.take l ++ s2.take w ++ s3.take l2)
        else some (1 + l, c :: s1.take l)
      else some (1 + l, c :: s1.take l)
    else none
  | [] => none

/-- `/(?:aus|in|wohne in|komme aus|standort[:\s]+)[\s]*([A-ZÄÖÜ][a-zäöüß]+(?:\s+[a-zäöüß]+)?)/i`. -/
def locPat1 (s : List Char) : Option (Nat × List Char) :=
  let tail := fun s1 =>
    repCls jsIsWs 0 none s1 (fun _ s2 => locCapture true s2)
  (litCI "aus".data s tail) <|>
  (litCI "in".data s tail) <|>
  (litCI "wohne in".data s tail) <|>
  (litCI "komme aus".data s tail) <|>
  (litCI "standort".data s (fun sa => repCls wsOrColon 1 none sa (fun _ sb => tail sb)))

/-- `/(?:stadt|ort)[:\s]+([A-ZÄÖÜ][a-zäöüß]+)/i`. -/
def locPat2 (s : List Char) : Option (Nat × List Char) :=
  let tail := fun s1 =>
    repCls wsOrColon 1 none s1 (fun _ s2 => locCapture false s2)
  (litCI "stadt".data s tail) <|> (litCI "ort".data s tail)

def isWordCh (c : Char) : Bool :=
  isAsciiLower c || isAsciiUpper c || isDigitCh c || c = '_'

/-- `/\b\d{5}\s+([A-ZÄÖÜ][a-zäöüß]+(?:\s+[a-zäöüß]+)?)/` (case-sensitive):
the word boundary requires the previous character to be a non-word
character (or the start of the string). -/
def plzMatchAt (s : List Char) : Option (Nat × List Char) :=
  if (s.take 5).length = 5 && (s.take 5).all isDigitCh then
    (repCls jsIsWs 1 none (s.drop 5) (fun _ s2 =>
      match s2 with
      | c :: s3 =>
        if upperGermanCls c then
          let l := runLen lowerGermanCls s3
          if l = 0 then none else
          let s4 := s3.drop l
          let w := runLen jsIsWs s4
          let s5 := s4.drop w
          let l2 := runLen lowerGermanCls s5
          if w ≥ 1 && l2 ≥ 1 then
            some (1 + l + w + l2, c :: s3.take l ++ s4.take w ++ s5.take l2)
          else some (1 + l, c :: s3.take l)
        else none
      | [] => none)).map (fun r => (5 + r.1, r.2))
  else none

def plzSearchGo : Option Char → List Char → Option (List Char)
  | prev, s@(c :: t) =>
    if (match prev with | none => true | some p => !isWordCh p) then
      match plzMatchAt s with
      | some (_, cap) => some cap
      | none => plzSearchGo (some c) t
    else plzSearchGo (some c) t
  | _, [] => none

def nonLocations : List String := ["deutschland", "österreich", "schweiz", "europa"]

/-- `extractLocation`: the two prefix patterns in order (each skipped when
its capture is a country name from the stoplist), then the
postal-code-plus-city pattern. -/
def extractLocation (text : String) : Option String :=
  let cs := text.data
  let tryPat := fun (pat : List Char → Option (Nat × List Char)) =>
    match searchFirst pat cs with
    | some (_, _, cap) =>
      if !cap.isEmpty && !nonLocations.contains (String.mk (jsLowerChars cap)) then
        some (String.mk (jsTrimChars cap))
      else none
    | none => none
  match tryPat locPat1 with
  | some r => some r
  | none =>
    match tryPat locPat2 with
    | some r => some r
    | none =>
      match plzSearchGo none cs with
      | some cap => if !cap.isEmpty then some (String.mk (jsTrimChars cap)) else none
      | none => none

def emailPreference : List String :=
  ["per email", "per e-mail", "via email", "email bevorzugt",
   "schreiben sie mir", "mail"]

def phonePreference : List String :=
  ["per telefon", "telefonisch", "anrufen", "rufen sie mich an",
   "telefon bevorzugt", "anruf"]

/-- `detectContactMethod`: explicit phone preference beats explicit email
preference; else default to email when an email but no phone was found. -/
def detectContactMethod (text : String) : Option String :=
  let lowerText := jsLowerStr text
  if phonePreference.any (fun p => jsIncludes lowerText p) then some "phone"
  else if emailPreference.any (fun p => jsIncludes lowerText p) then some "email"
  else if jsTruthyStr (extractEmail text) && !jsTruthyStr (extractPhoneNumber text) then
    some "email"
  else none

/-- `extractPersonData`: field-by-field extraction from the concatenated
user-authored messages. -/
def extractPersonData (messages : List Message) : ExtractedPersonData :=
  let userMessages := messages.filter (fun m => m.role == "user")
  let allUserText := String.intercalate "\n" (userMessages.map (fun m => m.content))
  let clientType := detectClientType allUserText
  { email := extractEmail allUserText
    phone_number := extractPhoneNumber allUserText
    full_name := extractName allUserText
    client_type := some clientType
    company_name := if clientType = "company" then extractCompanyName allUserText else none
    location := extractLocation allUserText
    preferred_contact_method := detectContactMethod allUserText }

/-- `isPersonDataComplete`: full name and email both present. -/
def isPersonDataComplete (data : ExtractedPersonData) : Bool :=
  jsTruthyStr data.full_name && jsTruthyStr data.email

/-! ## Case extractor -/

structure TimelineEntry where
  datum : Option String := none
  ereignis : String
  dokumentId : Option String := none
deriving Repr, DecidableEq

structure Parteien where
  klaeger : Option String := none
  beklagter : Option String := none
  weitere : Option (List String) := none
deriving Repr, DecidableEq

structure DokumentInfo where
  id : String
  name : String
  beschreibung : Option String := none
deriving Repr, DecidableEq

structure Streitwert where
  betrag : Option Nat := none
  waehrung : Option String := none
  schaetzung : Option Bool := none
deriving Repr, DecidableEq

structure Deadline where
  datum : String
  beschreibung : String
  kritisch : Option Bool := none
deriving Repr, DecidableEq

structure ExtractedCaseData where
  rechtsgebiet : Option String := none
  parteien : Option Parteien := none
  vertragsart : Option String := none
  timeline : Option (List TimelineEntry) := none
  problemdefinition : Option String := none
  dokumente : Option (List DokumentInfo) := none
  streitwert : Option Streitwert := none
  ziele : Option String := none
  dringlichkeit : Option String := none
  deadlines : Option (List Deadline) := none
  zusammenfassung : Option String := none
deriving Repr, DecidableEq

/-- Confidence scores in hundredths (the source's `0.8` is `80`). -/
structure ExtractionConfidence where
  overall : Nat
  rechtsgebiet : Nat
  parteien : Nat
  timeline : Nat
  problemdefinition : Nat
  deadlines : Nat
deriving Repr, DecidableEq

structure CaseExtractionResult where
  data : ExtractedCaseData
  confidence : ExtractionConfidence
  missingFields : List String
  suggestedQuestions : List String
deriving Repr, DecidableEq

/-- `RECHTSGEBIET_KEYWORDS`, in the source's (insertion) order. -/
def RECHTSGEBIET_KEYWORDS : List (String × List String) :=
  [("Mietrecht", ["miete", "vermieter", "mieter", "wohnung", "mieterhöhung", "kündigung", "mietvertrag", "kaution", "nebenkosten"]),
   ("Arbeitsrecht", ["arbeit", "chef", "kündigung", "arbeitsvertrag", "gehalt", "lohn", "abmahnung", "arbeitgeber", "arbeitnehmer"]),
   ("Familienrecht", ["scheidung", "ehe", "unterhalt", "sorgerecht", "kind", "trennung", "ehepartner"]),
   ("Verkehrsrecht", ["unfall", "auto", "fahrzeug", "verkehr", "schaden", "versicherung", "polizei", "fahrrad"]),
   ("Vertragsrecht", ["vertrag", "vereinbarung", "kaufvertrag", "lieferung", "zahlung", "forderung", "mahnung"]),
   ("Strafrecht", ["anzeige", "polizei", "straftat", "diebstahl", "betrug", "staatsanwalt", "gericht"]),
   ("Erbrecht", ["erbe", "testament", "erbschaft", "nachlass", "pflichtteil", "verstorben"]),
   ("Sozialrecht", ["rente", "krankenkasse", "arbeitslosengeld", "sozialleistung", "behinderung"])]

def URGENCY_HIGH : List String :=
  ["dringend", "sofort", "eilig", "frist morgen", "übermorgen", "diese woche", "heute"]

def URGENCY_MEDIUM : List String := ["bald", "zeitnah", "nächste woche", "nächsten monat"]

def URGENCY_LOW : List String := ["irgendwann", "keine eile", "wenn zeit ist"]

/-- The keyword-hit count of one legal area:
`keywords.filter(kw => text.includes(kw)).length`. -/
def areaScore (text : String) (keywords : List String) : Nat :=
  (keywords.filter (fun kw => jsIncludes text kw)).length

/-- `detectRechtsgebiet`: iterate the eight lexicons in order, keeping the
first strictly larger score; accept only a maximum of at least 2. -/
def detectRechtsgebiet (text : String) : Option String :=
  let r := RECHTSGEBIET_KEYWORDS.foldl
    (fun (acc : Nat × Option String) p =>
      let score := areaScore text p.2
      if score > acc.1 then (score, some p.1) else acc)
    (0, none)
  if r.1 ≥ 2 then r.2 else none

/-- `/mein(?:e)?\s+(vermieter|arbeitgeber|chef|bank|versicherung|nachbar)/i`. -/
def opponentPat1 (s : List Char) : Option (Nat × List Char) :=
  let captureAlt := fun s2 =>
    (["vermieter", "arbeitgeber", "chef", "bank", "versicherung", "nachbar"].map String.data).foldr
      (fun lit acc => (litCI lit s2 (fun _ => some (0, s2.take lit.length))) <|> acc) none
  let afterWs := fun s1 => repCls jsIsWs 1 none s1 (fun _ s2 => captureAlt s2)
  litCI "mein".data s (fun s1 => (litCI "e".data s1 afterWs) <|> afterWs s1)

/-- `/die\s+(firma|gesellschaft|behörde|stadt|gemeinde)/i`. -/
def opponentPat2 (s : List Char) : Option (Nat × List Char) :=
  litCI "die".data s (fun s1 =>
    repCls jsIsWs 1 none s1 (fun _ s2 =>
      (["firma", "gesellschaft", "behörde", "stadt", "gemeinde"].map String.data).foldr
        (fun lit acc => (litCI lit s2 (fun _ => some (0, s2.take lit.length))) <|> acc) none))

/-- `/gegen\s+(\w+)/i`. -/
def opponentPat3 (s : List Char) : Option (Nat × List Char) :=
  litCI "gegen".data s (fun s1 =>
    repCls jsIsWs 1 none s1 (fun _ s2 =>
      repCls isWordCh 1 none s2 (fun w _ => some (0, w))))

/-- `extractParteien`: first-person pronouns make the client the claimant;
the first matching opponent pattern, capitalized, is the defendant. -/
def extractParteien (text : String) : Parteien :=
  let klaeger :=
    if jsIncludes text "ich" || jsIncludes text "mein" || jsIncludes text "mir" then
      some "Mandant"
    else none
  let cap := fun (r : Nat × Nat × List Char) =>
    match r.2.2 with
    | c :: rest => String.mk (jsUpperFirst c ++ rest)
    | [] => ""
  let beklagter :=
    match searchFirst opponentPat1 text.data with
    | some r => some (cap r)
    | none =>
      match searchFirst opponentPat2 text.data with
      | some r => some (cap r)
      | none =>
        match searchFirst opponentPat3 text.data with
        | some r => some (cap r)
        | none => none
  { klaeger := klaeger, beklagter := beklagter }

/-- The date token `(\d{1,2})\.(\d{1,2})\.(\d{2,4})` in continuation-passing
style, capturing the token; the greedy digit counts backtrack against the
following literal dot and against the continuation. -/
def dateCapCPS (s : List Char) (k : List Char → Option (Nat × α)) :
    Option (Nat × (List Char × α)) :=
  repCls isDigitCh 1 (some 2) s (fun d1 s1 =>
    match s1 with
    | '.' :: s2 =>
      (repCls isDigitCh 1 (some 2) s2 (fun d2 s3 =>
        match s3 with
        | '.' :: s4 =>
          (repCls isDigitCh 2 (some 4) s4 (fun y s5 =>
            (k s5).map (fun r => (r.1, (d1 ++ '.' :: d2 ++ '.' :: y, r.2))))).map
            (fun r => (r.1 + 1, r.2))
        | _ => none)).map (fun r => (r.1 + 1, r.2))
    | _ => none)

/-- The timeline pattern `/(\d{1,2})\.(\d{1,2})\.(\d{2,4})/g`: the full
match is the date token itself. -/
def dateTokenMatch (s : List Char) : Option (Nat × List Char) :=
  (dateCapCPS s (fun _ => some (0, ()))).map (fun r => (r.1, r.2.1))

/-- `extractTimeline`: one entry per date token in each message (global
scan, context via `indexOf` of the matched token), plus at most one entry
per document using only its first date. -/
def extractTimeline (messages : List Message) (documents : List Document) :
    List TimelineEntry :=
  (messages.flatMap (fun msg =>
    let cs := msg.content.data
    (searchAll dateTokenMatch cs).map (fun r =>
      let date := r.2.2
      let index := jsIndexOf cs date
      let context := jsSubstring cs (index - 50).toNat
        (min cs.length (index + 100).toNat)
      { datum := some (String.mk date)
        ereignis := String.mk (jsTrimChars context) }))) ++
  documents.filterMap (fun doc =>
    match doc.extracted_text with
    | some t =>
      if t ≠ "" then
        match searchAll dateTokenMatch t.data with
        | [] => none
        | first :: _ =>
          some { datum := some (String.mk first.2.2)
                 ereignis := "Datum aus Dokument \"" ++ doc.file_name.getD "undefined" ++ "\""
                 dokumentId := some doc.id }
      else none
    | none => none)

/-- `extractProblemDefinition`: the first user message when longer than 50
characters, else the first three user messages joined, truncated to 500. -/
def extractProblemDefinition (messages : List Message) : Option String :=
  let userMessages := messages.filter (fun m => m.role == "user")
  match userMessages with
  | [] => none
  | first :: _ =>
    if 50 < first.content.length then
      some (String.mk (first.content.data.take 500))
    else
      some (String.mk ((String.intercalate " "
        ((userMessages.take 3).map (fun m => m.content))).data.take 500))

/-- `detectUrgency`: first keyword tier with a hit, checked high → medium,
default low. -/
def detectUrgency (text : String) : String :=
  if URGENCY_HIGH.any (fun kw => jsIncludes text kw) then "high"
  else if URGENCY_MEDIUM.any (fun kw => jsIncludes text kw) then "medium"
  else "low"

/-- `/frist\s+(?:bis\s+)?(?:zum\s+)?(\d{1,2}\.\d{1,2}\.\d{2,4})/gi`. -/
def deadlineP1 (s : List Char) : Option (Nat × List Char) :=
  (litCI "frist".data s (fun s1 =>
    repCls jsIsWs 1 none s1 (fun _ s2 =>
      let date := fun s4 => dateCapCPS s4 (fun _ => some (0, ()))
      let opt2 := fun s3 =>
        (litCI "zum".data s3 (fun sa =>
          repCls jsIsWs 1 none sa (fun _ sb => date sb))) <|> date s3
      (litCI "bis".data s2 (fun sa =>
        repCls jsIsWs 1 none sa (fun _ sb => opt2 sb))) <|> opt2 s2))).map
    (fun r => (r.1, r.2.1))

/-- `/bis\s+(?:zum\s+)?(\d{1,2}\.\d{1,2}\.\d{2,4})\s+(?:muss|müssen)/gi`. -/
def deadlineP2 (s : List Char) : Option (Nat × List Char) :=
  (litCI "bis".data s (fun s1 =>
    repCls jsIsWs 1 none s1 (fun _ s2 =>
      let date := fun s3 =>
        dateCapCPS s3 (fun s4 =>
          repCls jsIsWs 1 none s4 (fun _ s5 =>
            (litCI "muss".data s5 (fun _ => some (0, ()))) <|>
            (litCI "müssen".data s5 (fun _ => some (0, ())))))
      (litCI "zum".data s2 (fun sa =>
        repCls jsIsWs 1 none sa (fun _ sb => date sb))) <|> date s2))).map
    (fun r => (r.1, r.2.1))

/-- `/(?:einspruch|widerspruch|antwort)\s+bis\s+(\d{1,2}\.\d{1,2}\.\d{2,4})/gi`. -/
def deadlineP3 (s : List Char) : Option (Nat × List Char) :=
  (let tail := fun s1 =>
    repCls jsIsWs 1 none s1 (fun _ s2 =>
      litCI "bis".data s2 (fun s3 =>
        repCls jsIsWs 1 none s3 (fun _ s4 =>
          dateCapCPS s4 (fun _ => some (0, ())))))
  (litCI "einspruch".data s tail) <|>
  (litCI "widerspruch".data s tail) <|>
  (litCI "antwort".data s tail)).map (fun r => (r.1, r.2.1))

/-- `extractDeadlines`: every global match of the three patterns, in
pattern order, each entry tagged critical by the corpus-wide test
`text.includes('frist') || text.includes('einspruch')`. -/
def extractDeadlines (text : String) : List Deadline :=
  let cs := text.data
  (searchAll deadlineP1 cs ++ searchAll deadlineP2 cs ++ searchAll deadlineP3 cs).map
    (fun r =>
      let context := jsSubstring cs (r.1 - 30) (min cs.length (r.1 + r.2.1 + 30))
      { datum := String.mk r.2.2
        beschreibung := String.mk (jsTrimChars context)
        kritisch := some (jsIncludes text "frist" || jsIncludes text "einspruch") })

/-- `extractCaseData`: full recompute of the structured case record, its
per-field confidences (hundredths), the missing-field list, and up to two
suggested questions, from the lower-cased concatenation of user messages
and document texts. -/
def extractCaseData (messages : List Message) (documents : List Document) :
    CaseExtractionResult :=
  let userMessages := messages.filter (fun m => m.role == "user")
  let allText := jsLowerStr (String.intercalate "\n"
    (userMessages.map (fun m => m.content) ++
     documents.map (fun d => d.extracted_text.getD "")))
  let rechtsgebiet := detectRechtsgebiet allText
  let parteien := extractParteien allText
  let timeline := extractTimeline userMessages documents
  let problemdefinition := extractProblemDefinition userMessages
  let deadlines := extractDeadlines allText
  let data : ExtractedCaseData :=
    { rechtsgebiet := rechtsgebiet
      parteien := some parteien
      timeline := some timeline
      problemdefinition := problemdefinition
      dringlichkeit := some (detectUrgency allText)
      deadlines := some deadlines
      dokumente :=
        if 0 < documents.length then
          some (documents.map (fun d =>
            { id := d.id
              name := d.file_name.getD "Unbekanntes Dokument"
              beschreibung := d.extracted_text.map (fun t => String.mk (t.data.take 200)) }))
        else none }
  let cRechtsgebiet := if jsTruthyStr data.rechtsgebiet then 80 else 0
  let cParteien :=
    if jsTruthyStr parteien.klaeger && jsTruthyStr parteien.beklagter then 70 else 30
  let cTimeline := if 0 < timeline.length then 60 else 0
  let cProblem := if jsTruthyStr data.problemdefinition then 70 else 0
  let cDeadlines := if 0 < deadlines.length then 80 else 0
  let missingFields :=
    (if !jsTruthyStr data.rechtsgebiet then ["Rechtsgebiet"] else []) ++
    (if !jsTruthyStr parteien.klaeger || !jsTruthyStr parteien.beklagter then ["Parteien"] else []) ++
    (if timeline.length = 0 then ["Timeline"] else []) ++
    (if !jsTruthyStr data.problemdefinition then ["Problemdefinition"] else []) ++
    (if deadlines.length = 0 then ["Fristen"] else [])
  let suggestedQuestions :=
    (if !jsTruthyStr data.rechtsgebiet then
      ["Um welche Art von Rechtsproblem handelt es sich?"] else []) ++
    (if !jsTruthyStr parteien.klaeger || !jsTruthyStr parteien.beklagter then
      ["Wer sind die beteiligten Parteien (Sie und die Gegenseite)?"] else []) ++
    (if timeline.length = 0 then
      ["Können Sie den zeitlichen Ablauf der Ereignisse beschreiben?"] else []) ++
    (if deadlines.length = 0 then
      ["Gibt es eine Frist oder ein wichtiges Datum?"] else [])
  { data := data
    confidence :=
      { overall := (cRechtsgebiet + cParteien + cTimeline + cProblem + cDeadlines) / 5
        rechtsgebiet := cRechtsgebiet
        parteien := cParteien
        timeline := cTimeline
        problemdefinition := cProblem
        deadlines := cDeadlines }
    missingFields := missingFields
    suggestedQuestions := suggestedQuestions.take 2 }

/-- The urgency label map of `createCaseSummary` (`urgencyMap[x]` is
`undefined` for a key outside the map, which the template renders as the
string `"undefined"`; `detectUrgency` only produces the three keys). -/
def urgencyLabel (s : String) : String :=
  if s = "low" then "Niedrig" else if s = "medium" then "Mittel"
  else if s = "high" then "Hoch" else "undefined"

/-- `createCaseSummary`: deterministic German markdown rendering of the
populated fields, in the source's section order. -/
def createCaseSummary (data : ExtractedCaseData) : String :=
  let parts : List String :=
    (if jsTruthyStr data.rechtsgebiet then
      ["**Rechtsgebiet:** " ++ data.rechtsgebiet.getD ""] else []) ++
    (match data.parteien with
     | some p =>
       let parteienStr :=
         (if jsTruthyStr p.klaeger then ["Mandant: " ++ p.klaeger.getD ""] else []) ++
         (if jsTruthyStr p.beklagter then ["Gegenseite: " ++ p.beklagter.getD ""] else [])
       if 0 < parteienStr.length then
         ["**Parteien:** " ++ String.intercalate ", " parteienStr]
       else []
     | none => []) ++
    (if jsTruthyStr data.problemdefinition then
      ["**Sachverhalt:** " ++ data.problemdefinition.getD ""] else []) ++
    (if jsSomeNonempty data.timeline then
      ["**Chronologie:**\n" ++ String.intercalate "\n"
        ((data.timeline.getD []).map (fun t =>
          "- " ++ (if jsTruthyStr t.datum then t.datum.getD "" else "Ohne Datum") ++
          ": " ++ t.ereignis))] else []) ++
    (if jsSomeNonempty data.deadlines then
      ["**Fristen:**\n" ++ String.intercalate "\n"
        ((data.deadlines.getD []).map (fun d =>
          "- " ++ d.datum ++ ": " ++ d.beschreibung ++
          (if d.kritisch = some true then " ⚠️" else "")))] else []) ++
    (if jsSomeNonempty data.dokumente then
      ["**Dokumente:**\n" ++ String.intercalate "\n"
        ((data.dokumente.getD []).map (fun d => "- " ++ d.name))] else []) ++
    (if jsTruthyStr data.dringlichkeit then
      ["**Dringlichkeit:** " ++ urgencyLabel (data.dringlichkeit.getD "")] else [])
  String.intercalate "\n\n" parts

/-! ## Intake state machine (`src/utils/validators.ts`, intake logic) -/

/-- The seven intake phases, with the source's numeric values 1–7. -/
inductive IntakePhase
  | FREE_TEXT
  | AUTOMATIC_EXTRACTION
  | TARGETED_QUESTIONS
  | DEADLINES_URGENCY
  | CASE_FILE_GENERATION
  | PERSON_DATA
  | CONSENT
deriving Repr, DecidableEq

/-- The numeric enum value of a phase. -/
def IntakePhase.toNat : IntakePhase → Nat
  | .FREE_TEXT => 1
  | .AUTOMATIC_EXTRACTION => 2
  | .TARGETED_QUESTIONS => 3
  | .DEADLINES_URGENCY => 4
  | .CASE_FILE_GENERATION => 5
  | .PERSON_DATA => 6
  | .CONSENT => 7

structure IntakeState where
  phase : IntakePhase
  extractedData : ExtractedCaseData
  confidence : Nat
  intakeComplete : Bool
  personDataRequested : Bool
  consentGiven : Bool
  deadlinesAsked : Bool
  questionsAsked : List String
deriving Repr, DecidableEq

structure IntakeUpdateResult where
  state : IntakeState
  systemPromptAddition : Option String := none
  suggestedResponse : Option String := none
  shouldCreateCase : Bool
  shouldAskForPersonData : Bool
  shouldAskForConsent : Bool
deriving Repr, DecidableEq

/-- `CONFIDENCE_THRESHOLD = 0.6`, in hundredths. -/
def CONFIDENCE_THRESHOLD : Nat := 60

def MIN_MESSAGES_FOR_EXTRACTION : Nat := 2

def createInitialIntakeState : IntakeState :=
  { phase := .FREE_TEXT
    extractedData := {}
    confidence := 0
    intakeComplete := false
    personDataRequested := false
    consentGiven := false
    deadlinesAsked := false
    questionsAsked := [] }

def detectForwardRequest (text : String) : Bool :=
  ["ja", "anwalt", "anwältin", "weiterleiten", "weitergeben", "gerne"].any
    (fun p => jsIncludes text p)

def detectConsentIntent (text : String) : Bool :=
  ["zustimm", "einverstanden", "ok", "ja", "genehmig"].any
    (fun p => jsIncludes text p)

/-- The name shape `/[A-ZÄÖÜ][a-zäöüß]+\s+[A-ZÄÖÜ][a-zäöüß]+/` (two
capitalized words) of `detectPersonDataProvided`. -/
def twoCapWordsMatch (s : List Char) : Option (Nat × Unit) :=
  match s with
  | c :: s1 =>
    if upperGermanCls c then
      let l := runLen lowerGermanCls s1
      if l = 0 then none else
      let s2 := s1.drop l
      let w := runLen jsIsWs s2
      if w = 0 then none else
      match s2.drop w with
      | c2 :: s3 =>
        if upperGermanCls c2 then
          let l2 := runLen lowerGermanCls s3
          if l2 = 0 then none else some (1 + l + w + 1 + l2, ())
        else none
      | [] => none
    else none
  | [] => none

def detectPersonDataProvided (text : String) : Bool :=
  let hasEmail := jsIncludes text "@"
  let hasName := (searchFirst twoCapWordsMatch text.data).isSome
  hasEmail || hasName

def detectConsentGiven (text : String) : Bool :=
  let hasPositive := ["ja", "stimme zu", "einverstanden", "genehmigt", "speichern ja", "zustimmung"].any
    (fun p => jsIncludes text p)
  let hasNegative := ["nein", "nicht", "ablehne", "keine zustimmung"].any
    (fun p => jsIncludes text p)
  hasPositive && !hasNegative

def detectConsentDenied (text : String) : Bool :=
  ["nein", "nicht speichern", "ablehne", "keine zustimmung", "nicht einverstanden"].any
    (fun p => jsIncludes text p)

def generateFreeTextPrompt : String :=
  "\nDer Nutzer befindet sich in der FREIEN BESCHREIBUNGSPHASE.\n- Lass den Nutzer seinen Fall frei beschreiben, ohne zu unterbrechen.\n- Wenn Dokumente hochgeladen wurden, behandle deren Inhalt als Teil der Beschreibung.\n- Stelle KEINE Rückfragen in dieser Phase, es sei denn, die Beschreibung ist extrem kurz oder unklar.\n- Zeige Verständnis und höre aktiv zu.\n"

/-- The keys of `Object.entries(extraction.data)` with a defined value, in
the insertion order of `extractCaseData`'s assignments. -/
def foundDataKeys (data : ExtractedCaseData) : List String :=
  (if data.rechtsgebiet.isSome then ["rechtsgebiet"] else []) ++
  (if data.parteien.isSome then ["parteien"] else []) ++
  (if data.timeline.isSome then ["timeline"] else []) ++
  (if data.problemdefinition.isSome then ["problemdefinition"] else []) ++
  (if data.dringlichkeit.isSome then ["dringlichkeit"] else []) ++
  (if data.deadlines.isSome then ["deadlines"] else []) ++
  (if data.dokumente.isSome then ["dokumente"] else [])

/-- `generateExtractionPrompt`; `(overall * 100).toFixed(0)` is the
hundredths value itself. -/
def generateExtractionPrompt (extraction : CaseExtractionResult) : String :=
  let foundData := String.intercalate ", " (foundDataKeys extraction.data)
  "\nAUTOMATISCHE EXTRAKTION abgeschlossen.\nGefundene Informationen: " ++
  (if foundData == "" then "Noch wenig Daten" else foundData) ++
  "\nGesamtvertrauen: " ++ toString extraction.confidence.overall ++
  "%\nFehlende Felder: " ++
  (let mf := String.intercalate ", " extraction.missingFields
   if mf == "" then "Keine" else mf) ++
  "\n\nFasse kurz zusammen, was du verstanden hast, und stelle dann gezielt Fragen zu fehlenden Informationen (max. 1-2 Fragen).\n"

def generateTargetedQuestionsPrompt (questions : List String) : String :=
  "\nGEZIELTE FRAGEN-PHASE.\nStelle folgende Fragen (MAXIMAL 1-2 auf einmal):\n" ++
  String.intercalate "\n" (questions.mapIdx (fun i q => toString (i + 1) ++ ". " ++ q)) ++
  "\n\nFormuliere die Fragen natürlich und höflich auf Deutsch.\n"

def generateDeadlinesPrompt : String :=
  "\nFRISTEN-PHASE.\nDu MUSST jetzt nach Fristen fragen:\n1. \"Gibt es eine Frist oder ein wichtiges Datum, das Sie beachten müssen?\"\n2. \"Bis wann wünschen Sie eine Rückmeldung?\"\n\nDiese Fragen sind PFLICHT und müssen gestellt werden.\n"

def generateCaseFilePrompt (summary : String) : String :=
  "\nFALLAKTE-GENERIERUNG.\nErstelle eine vollständige Fallzusammenfassung basierend auf folgenden extrahierten Daten:\n\n" ++
  summary ++
  "\n\nWICHTIG: \n- Beginne mit \"Hier ist Ihre Fallzusammenfassung:\"\n- Formatiere die Zusammenfassung übersichtlich\n- Wenn Dokumente verwendet wurden, zitiere sie mit \"Laut Dokument...\"\n- Füge am Ende hinzu: \"Hinweis: Dies ist keine Rechtsberatung. Für rechtliche Schritte wenden Sie sich bitte an einen zugelassenen Anwalt.\"\n"

def generateCaseSummaryResponse (extraction : CaseExtractionResult) : String :=
  createCaseSummary extraction.data

def generatePersonDataPrompt : String :=
  "\nPERSONENDATEN-PHASE.\nDer Nutzer möchte den Fall an eine:n Anwält:in weitergeben.\n\nFrage nach folgenden Daten (in natürlicher Weise):\n- Vollständiger Name\n- E-Mail-Adresse\n- Mandantentyp (Privatperson oder Unternehmen)\n- Optional: Telefonnummer\n- Optional (bei Unternehmen): Firmenname\n- Optional: Standort/Stadt\n- Optional: Bevorzugte Kontaktmethode (E-Mail oder Telefon)\n\nStelle nicht alle Fragen auf einmal - frage natürlich und höflich.\n"

def generateConsentPrompt : String :=
  "\nEINWILLIGUNGS-PHASE.\nDu MUSST jetzt explizit um Einwilligung bitten:\n\n\"Darf ich Ihre Daten speichern und an eine:n Anwält:in weitergeben?\"\n\nWarte auf eine klare Zustimmung (ja/nein) bevor du fortfährst.\nDiese Zustimmung ist RECHTLICH ERFORDERLICH.\n"

def generateConsentConfirmationPrompt : String :=
  "\nEINWILLIGUNG ERTEILT.\nBestätige dem Nutzer:\n- Seine Daten werden sicher gespeichert\n- Der Fall wird an geeignete Anwälte weitergeleitet\n- Er wird in Kürze kontaktiert\n\nBedanke dich für das Vertrauen und erkläre die nächsten Schritte.\n"

/-- One phase step's outcome: the mutated state and the local variables
(`systemPromptAddition`, `suggestedResponse`, `shouldCreateCase`,
`shouldAskForPersonData`, `shouldAskForConsent`) of `updateIntakeState`. -/
structure IntakeStepOut where
  st : IntakeState
  prompt : Option String := none
  sugg : Option String := none
  localCreate : Bool := false
  askPerson : Bool := false
  askConsent : Bool := false

/-- `updateIntakeState`: recompute extraction, run one step of the 7-phase
switch, and derive the final `shouldCreateCase` as
`shouldCreateCase || (state.intakeComplete && state.consentGiven)` on the
mutated state. -/
def updateIntakeState (messages : List Message) (documents : List Document)
    (previousState : Option IntakeState := none) : IntakeUpdateResult :=
  let state0 := previousState.getD createInitialIntakeState
  let userMessages := messages.filter (fun m => m.role == "user")
  let assistantMessages := messages.filter (fun m => m.role == "assistant")
  let lastUserContent :=
    match userMessages.getLast? with
    | some m => jsLowerStr m.content
    | none => ""
  let extraction := extractCaseData messages documents
  let state := { state0 with
    extractedData := extraction.data
    confidence := extraction.confidence.overall }
  let step : IntakeStepOut :=
    match state.phase with
    | .FREE_TEXT =>
      { st := if MIN_MESSAGES_FOR_EXTRACTION ≤ userMessages.length then
          { state with phase := .AUTOMATIC_EXTRACTION } else state
        prompt := some generateFreeTextPrompt }
    | .AUTOMATIC_EXTRACTION =>
      { st :=
          if 0 < extraction.missingFields.length then
            { state with phase := .TARGETED_QUESTIONS }
          else if !state.deadlinesAsked then
            { state with phase := .DEADLINES_URGENCY }
          else
            { state with phase := .CASE_FILE_GENERATION }
        prompt := some (generateExtractionPrompt extraction) }
    | .TARGETED_QUESTIONS =>
      let availableQuestions := extraction.suggestedQuestions.filter
        (fun q => !state.questionsAsked.contains q)
      if 0 < availableQuestions.length &&
          extraction.confidence.overall < CONFIDENCE_THRESHOLD then
        { st := { state with questionsAsked := state.questionsAsked ++ availableQuestions.take 2 }
          prompt := some (generateTargetedQuestionsPrompt (availableQuestions.take 2)) }
      else if !state.deadlinesAsked then
        { st := { state with phase := .DEADLINES_URGENCY } }
      else
        { st := { state with phase := .CASE_FILE_GENERATION } }
    | .DEADLINES_URGENCY =>
      if !state.deadlinesAsked then
        { st := { state with deadlinesAsked := true }
          prompt := some generateDeadlinesPrompt }
      else
        { st := { state with phase := .CASE_FILE_GENERATION } }
    | .CASE_FILE_GENERATION =>
      if CONFIDENCE_THRESHOLD ≤ extraction.confidence.overall ||
          6 ≤ assistantMessages.length then
        let summary := createCaseSummary extraction.data
        let statec := { state with intakeComplete := true }
        if detectForwardRequest lastUserContent then
          { st := { statec with phase := .PERSON_DATA }
            prompt := some (generateCaseFilePrompt summary)
            sugg := some (generateCaseSummaryResponse extraction)
            askPerson := true }
        else
          { st := statec
            prompt := some (generateCaseFilePrompt summary ++
              "\n\nNach der Zusammenfassung frage: \"Möchten Sie, dass wir Ihren Fall an eine:n Anwält:in weitergeben?\"")
            sugg := some (generateCaseSummaryResponse extraction) }
      else
        { st := { state with phase := .TARGETED_QUESTIONS } }
    | .PERSON_DATA =>
      let statep := { state with personDataRequested := true }
      if detectConsentIntent lastUserContent then
        { st := { statep with phase := .CONSENT }, askConsent := true }
      else if detectPersonDataProvided lastUserContent then
        { st := { statep with phase := .CONSENT }
          prompt := some generateConsentPrompt }
      else
        { st := statep, prompt := some generatePersonDataPrompt }
    | .CONSENT =>
      if detectConsentGiven lastUserContent then
        { st := { state with consentGiven := true }
          prompt := some generateConsentConfirmationPrompt
          localCreate := true }
      else if detectConsentDenied lastUserContent then
        { st := { state with consentGiven := false }
          prompt := some "Der Nutzer hat die Einwilligung abgelehnt. Bedanke dich für das Gespräch und erkläre, dass keine Daten gespeichert werden." }
      else
        { st := state, prompt := some generateConsentPrompt, askConsent := true }
  { state := step.st
    systemPromptAddition := step.prompt
    suggestedResponse := step.sugg
    shouldCreateCase := step.localCreate || (step.st.intakeComplete && step.st.consentGiven)
    shouldAskForPersonData := step.askPerson
    shouldAskForConsent := step.askConsent }

/-! ## Person API route (`src/app/api/person/route.ts`) -/

/-- The request body `{ conversationId, ...personData }` (already parsed
from JSON). -/
structure PersonRequest where
  conversationId : Option String := none
  person : PersonDataPartial
deriving Repr, DecidableEq

/-- The row inserted into the `persons` table. -/
structure PersonRow where
  full_name : Option String
  email : Option String
  phone_number : Option String
  client_type : Option String
  company_name : Option String
  location : Option String
  preferred_contact_method : String
  consent_to_contact : Bool
  consent_share_with_lawyer : Option Bool
  consent_timestamp : String
deriving Repr, DecidableEq

inductive DbWrite
  | insertPerson (row : PersonRow)
  | updateConversationPerson (conversationId : String) (personId : String) (updatedAt : String)
deriving Repr, DecidableEq

structure PersonOut where
  id : String
  full_name : Option String
  email : Option String
  client_type : Option String
deriving Repr, DecidableEq

structure RouteResponse where
  status : Nat
  error : Option String := none
  details : Option (List String) := none
  success : Bool := false
  person : Option PersonOut := none
  message : Option String := none
deriving Repr, DecidableEq

/-- The route's external collaborators: whether the person insert succeeds,
the id the store assigns, whether the conversation update succeeds, and the
current timestamp (`new Date().toISOString()`). -/
structure RouteWorld where
  insertOk : Bool
  newPersonId : String
  conversationUpdateOk : Bool
  now : String
deriving Repr, DecidableEq

/-- `POST` of the person route: the response and the list of rows actually
persisted.  A failed insert persists nothing and returns 500; a failed
conversation update is logged and ignored (the 200 response stands). -/
def personPostRoute (body : PersonRequest) (w : RouteWorld) :
    RouteResponse × List DbWrite :=
  if !jsTruthyStr body.conversationId then
    ({ status := 400, error := some "Conversation ID erforderlich" }, [])
  else
    let validation := validatePersonData body.person
    if !validation.valid then
      ({ status := 400, error := some "Validierungsfehler",
         details := some validation.errors }, [])
    else if !(body.person.consent_share_with_lawyer.getD false) then
      ({ status := 400,
         error := some "Einwilligung zur Weitergabe an Anwalt erforderlich" }, [])
    else
      let row : PersonRow :=
        { full_name := body.person.full_name
          email := body.person.email
          phone_number :=
            if jsTruthyStr body.person.phone_number then body.person.phone_number else none
          client_type := body.person.client_type
          company_name :=
            if jsTruthyStr body.person.company_name then body.person.company_name else none
          location :=
            if jsTruthyStr body.person.location then body.person.location else none
          preferred_contact_method :=
            if jsTruthyStr body.person.preferred_contact_method then
              body.person.preferred_contact_method.getD "" else "email"
          consent_to_contact := body.person.consent_to_contact.getD true
          consent_share_with_lawyer := body.person.consent_share_with_lawyer
          consent_timestamp := w.now }
      if !w.insertOk then
        ({ status := 500, error := some "Fehler beim Speichern der Personendaten" }, [])
      else
        ({ status := 200, success := true
           person := some { id := w.newPersonId, full_name := row.full_name,
                            email := row.email, client_type := row.client_type }
           message := some "Personendaten erfolgreich gespeichert" },
         [DbWrite.insertPerson row] ++
         (if w.conversationUpdateOk then
           [DbWrite.updateConversationPerson (body.conversationId.getD "")
             w.newPersonId w.now]
          else []))

/-! ## Theorems -/

/-- Optional strings that are truthy are not `none`. -/
theorem jsTruthyStr_ne_none {o : Option String} (h : jsTruthyStr o = true) : o ≠ none := by
  intro hn
  rw [hn] at h
  simp [jsTruthyStr] at h

/-- C4, counterexample: `parseGermanDate "31.02.2024"` is not `none` as the
claim states — the `DD.MM.YYYY` branch overflow-normalizes the impossible
date 31 February 2024 to 2 March 2024. -/
theorem c4_counterexample :
    parseGermanDate "31.02.2024" = some "2024-03-02" ∧
    parseGermanDate "31.02.2024" ≠ none := by
  constructor
  · decide
  · decide

/-- C4, amended: `parseGermanDate` maps `"31.12.2023"` to `"2023-12-31"` and
`"2024-01-05"` to `"2024-01-05"`, but maps `"31.02.2024"` to `"2024-03-02"`
(day-overflow normalization instead of rejection); any string matching the
`DD.MM.YYYY` shape yields a date string, never `none`. -/
theorem c4_theorem :
    parseGermanDate "31.12.2023" = some "2023-12-31" ∧
    parseGermanDate "2024-01-05" = some "2024-01-05" ∧
    parseGermanDate "31.02.2024" = some "2024-03-02" ∧
    (∀ s : String, (germanDateMatch s.data).isSome →
      (parseGermanDate s).isSome) := by
  refine ⟨by decide, by decide, by decide, ?_⟩
  intro s h
  unfold parseGermanDate
  match hm : germanDateMatch s.data with
  | some (d, m, y) => simp
  | none => rw [hm] at h; simp at h

/-- C8: on the transcript consisting of the single user message
`"Mein Name ist Anna Schmidt, meine Email ist anna@example.de"`, the person
extractor finds name, email, private client type, and email as preferred
contact method. -/
theorem c8_theorem :
    (let pd := extractPersonData [{ role := "user", content := "Mein Name ist Anna Schmidt, meine Email ist anna@example.de" }]
     pd.full_name = some "Anna Schmidt" ∧
     pd.email = some "anna@example.de" ∧
     pd.client_type = some "private" ∧
     pd.preferred_contact_method = some "email") := by
  refine ⟨?_, ?_, ?_, ?_⟩ <;> decide

/-- C9: `validatePersonData` never requires `consent_to_contact`: when the
name, email, client-type, company-name and contact-method rules hold and
`consent_share_with_lawyer` is any boolean (`false` included), the result is
valid with no errors even with `consent_to_contact` absent; moreover the
validator's outcome never depends on `consent_to_contact` at all. -/
theorem c9_theorem (d : PersonDataPartial) (b : Bool)
    (hname : (!jsTruthyStr d.full_name || (jsTrim (d.full_name.getD "")).length < 2) = false)
    (hemail : (!jsTruthyStr d.email || !isValidEmail (d.email.getD "")) = false)
    (hclient : (!jsTruthyStr d.client_type || !isValidClientType (d.client_type.getD "")) = false)
    (hcompany : (d.client_type = some "company" &&
      (!jsTruthyStr d.company_name || (jsTrim (d.company_name.getD "")).length < 2)) = false)
    (hcontact : (jsTruthyStr d.preferred_contact_method &&
      !isValidContactMethod (d.preferred_contact_method.getD "")) = false)
    (hconsent : d.consent_share_with_lawyer = some b)
    (_habsent : d.consent_to_contact = none) :
    validatePersonData d = { valid := true, errors := [] } ∧
    (∀ (d' : PersonDataPartial) (v : Option Bool),
      validatePersonData { d' with consent_to_contact := v } = validatePersonData d') := by
  constructor
  · unfold validatePersonData
    rw [hname, hemail, hclient, hcompany, hcontact, hconsent]
    simp
  · intro d' v
    cases d'
    rfl

/-- C9, witness: a concrete person with `consent_to_contact` absent and
`consent_share_with_lawyer = false` validates cleanly. -/
theorem c9_witness :
    validatePersonData
      { full_name := some "Anna Schmidt", email := some "anna@example.de",
        client_type := some "private", consent_share_with_lawyer := some false }
      = { valid := true, errors := [] } ∧
    (∀ (d' : PersonDataPartial) (v : Option Bool),
      validatePersonData { d' with consent_to_contact := v } = validatePersonData d') :=
  c9_theorem
    { full_name := some "Anna Schmidt", email := some "anna@example.de",
      client_type := some "private", consent_share_with_lawyer := some false }
    false (by decide) (by decide) (by decide) (by decide) (by decide) rfl rfl

/-- C10: each per-field confidence of `extractCaseData` takes one of two
fixed values (hundredths: rechtsgebiet 0/80, parteien 30/70, timeline 0/60,
problemdefinition 0/70, deadlines 0/80), the overall confidence is their
exact unweighted mean, hence lies in [6, 72] hundredths — never 0 — and can
reach the 60-hundredths completion threshold only when the legal area is
set. -/
theorem c10_theorem (messages : List Message) (documents : List Document) :
    (let r := extractCaseData messages documents
     (r.confidence.rechtsgebiet = 0 ∨ r.confidence.rechtsgebiet = 80) ∧
     (r.confidence.parteien = 30 ∨ r.confidence.parteien = 70) ∧
     (r.confidence.timeline = 0 ∨ r.confidence.timeline = 60) ∧
     (r.confidence.problemdefinition = 0 ∨ r.confidence.problemdefinition = 70) ∧
     (r.confidence.deadlines = 0 ∨ r.confidence.deadlines = 80) ∧
     r.confidence.overall = (r.confidence.rechtsgebiet + r.confidence.parteien +
       r.confidence.timeline + r.confidence.problemdefinition +
       r.confidence.deadlines) / 5 ∧
     6 ≤ r.confidence.overall ∧ r.confidence.overall ≤ 72 ∧
     (r.confidence.overall < 60 ∨ r.data.rechtsgebiet ≠ none)) := by
  simp only [extractCaseData]
  split_ifs <;>
    refine ⟨by simp, by simp, by simp, by simp, by simp, by simp, by norm_num, by norm_num, ?_⟩ <;>
    first
      | (left; omega)
      | (right; exact jsTruthyStr_ne_none (by assumption))

/-- C6: deadline extraction returns one entry per global match of each of
the three patterns (in pattern order), and every entry's critical flag is
the single corpus-wide predicate "the text contains `frist` or
`einspruch`" — so all entries of one extraction carry the same flag. -/
theorem c6_theorem (text : String) :
    (extractDeadlines text).length =
      (searchAll deadlineP1 text.data).length + (searchAll deadlineP2 text.data).length +
      (searchAll deadlineP3 text.data).length ∧
    ∀ d ∈ extractDeadlines text,
      d.kritisch = some (jsIncludes text "frist" || jsIncludes text "einspruch") := by
  constructor
  · simp only [extractDeadlines, List.length_map, List.length_append]
  · intro d hd
    simp only [extractDeadlines, List.mem_map] at hd
    obtain ⟨r, _, rfl⟩ := hd
    rfl

/-- Fold invariant of `detectRechtsgebiet`: if the accumulator's score
already dominates every remaining area score, the fold leaves it
unchanged. -/
theorem detect_fold_of_le (text : String) :
    ∀ (L : List (String × List String)) (b : Nat) (a : Option String),
      (L.map (fun p => areaScore text p.2)).foldr max 0 ≤ b →
      L.foldl (fun (acc : Nat × Option String) p =>
        let score := areaScore text p.2
        if score > acc.1 then (score, some p.1) else acc) (b, a) = (b, a)
  | [], _, _, _ => rfl
  | p :: t, b, a, h => by
    have hM : ((p :: t).map (fun q => areaScore text q.2)).foldr max 0 =
        max (areaScore text p.2) ((t.map (fun q => areaScore text q.2)).foldr max 0) := rfl
    rw [hM] at h
    have h1 : areaScore text p.2 ≤ b := le_trans (le_max_left _ _) h
    have h2 : (t.map (fun q => areaScore text q.2)).foldr max 0 ≤ b :=
      le_trans (le_max_right _ _) h
    simp only [List.foldl_cons]
    rw [if_neg (by omega)]
    exact detect_fold_of_le text t b a h2

/-- Fold invariant of `detectRechtsgebiet`: when some remaining score
strictly exceeds the accumulator, the fold ends at the maximal score paired
with the first area attaining it. -/
theorem detect_fold_of_lt (text : String) :
    ∀ (L : List (String × List String)) (b : Nat) (a : Option String),
      b < (L.map (fun p => areaScore text p.2)).foldr max 0 →
      ∃ p₀, L.find? (fun p =>
          (L.map (fun q => areaScore text q.2)).foldr max 0 ≤ areaScore text p.2) = some p₀ ∧
        L.foldl (fun (acc : Nat × Option String) p =>
          let score := areaScore text p.2
          if score > acc.1 then (score, some p.1) else acc) (b, a) =
          ((L.map (fun p => areaScore text p.2)).foldr max 0, some p₀.1)
  | [], b, a, h => absurd h (by simp)
  | p :: t, b, a, h => by
    have hM : ((p :: t).map (fun q => areaScore text q.2)).foldr max 0 =
        max (areaScore text p.2) ((t.map (fun q => areaScore text q.2)).foldr max 0) := rfl
    rw [hM] at h ⊢
    by_cases hgt : areaScore text p.2 > b
    · by_cases hle : (t.map (fun q => areaScore text q.2)).foldr max 0 ≤ areaScore text p.2
      · rw [max_eq_left hle]
        refine ⟨p, ?_, ?_⟩
        · apply List.find?_cons_of_pos
          simp
        · simp only [List.foldl_cons]
          rw [if_pos (by omega)]
          exact detect_fold_of_le text t _ _ hle
      · push_neg at hle
        obtain ⟨p₀, hfind, hfold⟩ :=
          detect_fold_of_lt text t (areaScore text p.2) (some p.1) hle
        rw [max_eq_right (le_of_lt hle)]
        refine ⟨p₀, ?_, ?_⟩
        · rw [List.find?_cons_of_neg]
          · exact hfind
          · simp only [decide_eq_true_eq]
            omega
        · simp only [List.foldl_cons]
          rw [if_pos (by omega)]
          exact hfold
    · push_neg at hgt
      have hlt : b < (t.map (fun q => areaScore text q.2)).foldr max 0 := by omega
      obtain ⟨p₀, hfind, hfold⟩ := detect_fold_of_lt text t b a hlt
      rw [max_eq_right (by omega)]
      refine ⟨p₀, ?_, ?_⟩
      · rw [List.find?_cons_of_neg]
        · exact hfind
        · simp only [decide_eq_true_eq]
          omega
      · simp only [List.foldl_cons]
        rw [if_neg (by omega)]
        exact hfold

/-- C5: on every (lower-cased) corpus, `detectRechtsgebiet` counts keyword
hits per the 8 fixed lexicons and returns the first area (in iteration
order) attaining the maximum count when that maximum is at least 2, and
`none` otherwise.  In particular a corpus with ≥ 2 hits in exactly one
lexicon and none elsewhere yields that area, and a corpus with exactly one
hit in each of two areas (maximum 1) yields `none`. -/
theorem c5_theorem (text : String) :
    detectRechtsgebiet text =
      (let m := (RECHTSGEBIET_KEYWORDS.map (fun p => areaScore text p.2)).foldr max 0
       if 2 ≤ m then
         (RECHTSGEBIET_KEYWORDS.find? (fun p => m ≤ areaScore text p.2)).map Prod.fst
       else none) := by
  simp only []
  rcases Nat.eq_zero_or_pos
    ((RECHTSGEBIET_KEYWORDS.map (fun p => areaScore text p.2)).foldr max 0) with h0 | hpos
  · unfold detectRechtsgebiet
    rw [detect_fold_of_le text RECHTSGEBIET_KEYWORDS 0 none (by omega)]
    rw [if_neg (by omega), if_neg (by omega)]
  · obtain ⟨p₀, hfind, hfold⟩ := detect_fold_of_lt text RECHTSGEBIET_KEYWORDS 0 none hpos
    unfold detectRechtsgebiet
    rw [hfold, hfind]
    by_cases h2 : 2 ≤ (RECHTSGEBIET_KEYWORDS.map (fun p => areaScore text p.2)).foldr max 0
    · rw [if_pos h2, if_pos h2]
      rfl
    · rw [if_neg h2, if_neg h2]

/-- C1, counterexample: a call in the Consent phase whose input state
already carries `intakeComplete` and `consentGiven` (the reachable state
after a granted consent) but whose last user message is `"nein"` returns
`shouldCreateCase = false` — the claim's biconditional (which reads the
*input* state) asserts `true` here.  The denial overwrites `consentGiven`
and the final gate reads the mutated state. -/
theorem c1_counterexample :
    (let s : IntakeState :=
      { phase := IntakePhase.CONSENT, extractedData := {}, confidence := 0,
        intakeComplete := true, personDataRequested := true, consentGiven := true,
        deadlinesAsked := true, questionsAsked := [] }
     let r := updateIntakeState [{ role := "user", content := "nein" }] [] (some s)
     s.phase = IntakePhase.CONSENT ∧
     detectConsentGiven "nein" = false ∧
     s.intakeComplete = true ∧ s.consentGiven = true ∧
     r.shouldCreateCase = false ∧ r.state.consentGiven = false) := by
  refine ⟨rfl, by decide, rfl, rfl, by decide, by decide⟩

/-- C1, amended: `shouldCreateCase` is true iff the Consent transition just
detected positive consent in the last user message, or the *returned*
(mutated) state carries both `intakeComplete` and `consentGiven`; in
particular it is false whenever the returned state has
`consentGiven = false`.  (On the input state the biconditional fails when a
denial in the Consent phase clears a previously granted consent.) -/
theorem c1_theorem (messages : List Message) (documents : List Document)
    (prev : Option IntakeState) :
    (let s := prev.getD createInitialIntakeState
     let r := updateIntakeState messages documents prev
     let lastContent :=
       match (messages.filter (fun m => m.role == "user")).getLast? with
       | some m => jsLowerStr m.content
       | none => ""
     r.shouldCreateCase =
       ((match s.phase with
         | IntakePhase.CONSENT => detectConsentGiven lastContent
         | _ => false) ||
        (r.state.intakeComplete && r.state.consentGiven)) ∧
     (r.state.consentGiven = false → r.shouldCreateCase = false)) := by
  simp only []
  rcases hs : prev.getD createInitialIntakeState with ⟨ph, ed, cf, ic, pdr, cg, da, qa⟩
  unfold updateIntakeState
  rw [hs]
  cases ph <;> simp <;> split_ifs <;> simp_all

/-- C3: for every step of `updateIntakeState` from any previous state, the
returned phase is ≥ the input phase, except exactly the one regression edge
CASE_FILE_GENERATION → TARGETED_QUESTIONS, taken when overall confidence is
below the 0.6 threshold and fewer than 6 assistant messages exist. -/
theorem c3_theorem (messages : List Message) (documents : List Document)
    (prev : Option IntakeState) :
    (let s := prev.getD createInitialIntakeState
     let r := updateIntakeState messages documents prev
     s.phase.toNat ≤ r.state.phase.toNat ∨
       (s.phase = IntakePhase.CASE_FILE_GENERATION ∧
        r.state.phase = IntakePhase.TARGETED_QUESTIONS ∧
        (extractCaseData messages documents).confidence.overall < CONFIDENCE_THRESHOLD ∧
        (messages.filter (fun m => m.role == "assistant")).length < 6)) := by
  simp only []
  rcases hs : prev.getD createInitialIntakeState with ⟨ph, ed, cf, ic, pdr, cg, da, qa⟩
  unfold updateIntakeState
  rw [hs]
  cases ph <;> simp [IntakePhase.toNat] <;> split_ifs <;>
    simp_all [IntakePhase.toNat, CONFIDENCE_THRESHOLD]

/-- C2, counterexample: a body with no `conversationId` but fully valid,
consented person data is answered 400, not 200 as the claim's success
branch asserts for every request passing validation with consent true. -/
theorem c2_counterexample :
    (let body : PersonRequest :=
      { conversationId := none,
        person := { full_name := some "Anna Schmidt", email := some "anna@example.de",
                    client_type := some "private", consent_share_with_lawyer := some true } }
     let w : RouteWorld :=
      { insertOk := true, newPersonId := "person-1", conversationUpdateOk := true,
        now := "2024-01-01T00:00:00.000Z" }
     (validatePersonData body.person).valid = true ∧
     body.person.consent_share_with_lawyer = some true ∧
     (personPostRoute body w).1.status = 400 ∧
     (personPostRoute body w).2 = []) := by
  refine ⟨by decide, rfl, by decide, by decide⟩

/-- C2, amended: if validation fails or `consent_share_with_lawyer` is not
true, the response is 400 with a German error and nothing is written (no
partial write); when the body carries a conversationId, validation passes,
consent is true and the person insert succeeds, the response is 200 with
the created person's id, full_name, email and client_type; and a person row
is written only when `consent_share_with_lawyer` is true.  (A missing
conversationId gives 400 even for valid consented data; a failed insert
gives 500.) -/
theorem c2_theorem (body : PersonRequest) (w : RouteWorld) :
    ((validatePersonData body.person).valid = false ∨
        body.person.consent_share_with_lawyer ≠ some true →
      (personPostRoute body w).1.status = 400 ∧
      ((personPostRoute body w).1.error).isSome = true ∧
      (personPostRoute body w).2 = []) ∧
    (jsTruthyStr body.conversationId = true →
      (validatePersonData body.person).valid = true →
      body.person.consent_share_with_lawyer = some true →
      w.insertOk = true →
      (personPostRoute body w).1.status = 200 ∧
      (personPostRoute body w).1.person = some
        { id := w.newPersonId, full_name := body.person.full_name,
          email := body.person.email, client_type := body.person.client_type }) ∧
    (∀ row, DbWrite.insertPerson row ∈ (personPostRoute body w).2 →
      body.person.consent_share_with_lawyer = some true) := by
  refine ⟨?_, ?_, ?_⟩
  · intro h
    by_cases hc0 : jsTruthyStr body.conversationId = true
    · by_cases hc1 : (validatePersonData body.person).valid = true
      · have hcons : body.person.consent_share_with_lawyer.getD false = false := by
          rcases h with h | h
          · simp [hc1] at h
          · rcases hx : body.person.consent_share_with_lawyer with _ | b
            · rfl
            · cases b
              · rfl
              · exact absurd hx h
        simp [personPostRoute, hc0, hc1, hcons]
      · simp only [Bool.not_eq_true] at hc1
        simp [personPostRoute, hc0, hc1]
    · simp only [Bool.not_eq_true] at hc0
      simp [personPostRoute, hc0]
  · intro hconv hval hcons hins
    constructor
    · simp [personPostRoute, hconv, hval, hcons, hins]
    · simp [personPostRoute, hconv, hval, hcons, hins]
  · intro row hrow
    by_cases hc0 : jsTruthyStr body.conversationId = true
    · by_cases hc1 : (validatePersonData body.person).valid = true
      · by_cases hc2 : body.person.consent_share_with_lawyer.getD false = true
        · rcases hx : body.person.consent_share_with_lawyer with _ | b
          · rw [hx] at hc2
            simp at hc2
          · rw [hx] at hc2
            simp at hc2
            rw [hc2]
        · simp only [Bool.not_eq_true] at hc2
          simp [personPostRoute, hc0, hc1, hc2] at hrow
      · simp only [Bool.not_eq_true] at hc1
        simp [personPostRoute, hc0, hc1] at hrow
    · simp only [Bool.not_eq_true] at hc0
      simp [personPostRoute, hc0] at hrow

/-- C7, counterexample: a scripted transcript with 2 user messages, all
five fields extractable (no missing fields) and confidence 0.72 ≥ 0.6,
starting from the initial state, is still in DEADLINES_URGENCY — not
CASE_FILE_GENERATION — after 3 update turns: the DeadlinesUrgency phase
consumes one extra turn to ask its mandatory questions. -/
theorem c7_counterexample :
    (let msgs : List Message :=
      [{ role := "user", content := "Mein Vermieter hat eine Frist bis 15.03.2024 gesetzt." },
       { role := "assistant", content := "Danke, das tut mir leid." },
       { role := "user", content := "Was soll ich tun" }]
     let s1 := (updateIntakeState msgs [] none).state
     let s2 := (updateIntakeState msgs [] (some s1)).state
     let s3 := (updateIntakeState msgs [] (some s2)).state
     (msgs.filter (fun m => m.role == "user")).length = 2 ∧
     (extractCaseData msgs []).missingFields = [] ∧
     CONFIDENCE_THRESHOLD ≤ (extractCaseData msgs []).confidence.overall ∧
     s3.phase = IntakePhase.DEADLINES_URGENCY ∧
     s3.phase ≠ IntakePhase.CASE_FILE_GENERATION) := by
  refine ⟨by decide, by decide, by decide, by decide, by decide⟩

/-- C7, amended: (1) from a FreeText state, any update over a transcript
with at most 1 user message stays in FreeText; (2) on a scripted transcript
with 2+ user messages, all five fields extractable and confidence ≥ 0.6,
the phase reaches AutomaticExtraction after turn 1, DeadlinesUrgency after
turn 2, dwells there for turn 3 (asking the mandatory deadline questions),
and reaches CaseFileGeneration after turn 4 — not within 3 turns. -/
theorem c7_theorem :
    (∀ (messages : List Message) (documents : List Document) (prev : Option IntakeState),
      (prev.getD createInitialIntakeState).phase = IntakePhase.FREE_TEXT →
      (messages.filter (fun m => m.role == "user")).length ≤ 1 →
      (updateIntakeState messages documents prev).state.phase = IntakePhase.FREE_TEXT) ∧
    (let msgs : List Message :=
      [{ role := "user", content := "Mein Vermieter hat eine Frist bis 15.03.2024 gesetzt." },
       { role := "assistant", content := "Danke, das tut mir leid." },
       { role := "user", content := "Was soll ich tun" }]
     let s1 := (updateIntakeState msgs [] none).state
     let s2 := (updateIntakeState msgs [] (some s1)).state
     let s3 := (updateIntakeState msgs [] (some s2)).state
     let s4 := (updateIntakeState msgs [] (some s3)).state
     (extractCaseData msgs []).missingFields = [] ∧
     CONFIDENCE_THRESHOLD ≤ (extractCaseData msgs []).confidence.overall ∧
     s1.phase = IntakePhase.AUTOMATIC_EXTRACTION ∧
     s2.phase = IntakePhase.DEADLINES_URGENCY ∧
     s3.phase = IntakePhase.DEADLINES_URGENCY ∧
     s4.phase = IntakePhase.CASE_FILE_GENERATION) := by
  constructor
  · intro messages documents prev hph hlen
    rcases hs : prev.getD createInitialIntakeState with ⟨ph, ed, cf, ic, pdr, cg, da, qa⟩
    rw [hs] at hph
    simp at hph
    subst hph
    unfold updateIntakeState
    rw [hs]
    simp [MIN_MESSAGES_FOR_EXTRACTION]
    rw [if_neg (by omega)]
  · refine ⟨by decide, by decide, by decide, by decide, by decide, by decide⟩

